import Mathlib

/-!
Verification of the room-transcriber backend (`src/backend/main.py`): a shallow
embedding of the agent registry, the transcript bus, the track-transcriber drain
loop, participant name resolution and the room-agent task, together with proofs
of the specified properties.

Conventions of the embedding:
* Python dicts keyed by strings become association lists (`List (String × _)`),
  with Python's insertion-order and key-uniqueness behaviour made explicit.
* `asyncio.Queue` objects are identified by a `Nat` id and carry their contents
  as a `List Msg`; the queues are unbounded (default `asyncio.Queue()`), so
  `put` is total.
* `json.loads` is an external stdlib call; a participant's `metadata` field is
  embedded as its parse outcome (`none` = empty/absent string, `some none` =
  non-empty but fails to parse, `some (some j)` = parses to the value `j`).
* Exceptions (`ValueError` from `list.remove`, `IndexError` from
  `alternatives[0]`, `HTTPException`) become `Except` / explicit error values.
-/

/-- A JSON value, the result of `json.loads` on participant metadata.
Objects keep their fields as an ordered list; Python keeps the last
occurrence of a duplicated key, hence `dictGet` looks up the last match. -/
inductive Json where
  | str : String → Json
  | num : Int → Json
  | obj : List (String × Json) → Json
  | arr : List Json → Json
  | jbool : Bool → Json
  | null : Json

/-- Lookup in a parsed JSON object, matching Python's dict semantics for
`json.loads` output (last duplicate key wins). -/
def dictGet (fields : List (String × Json)) (k : String) : Option Json :=
  (fields.reverse.find? (fun p => p.1 = k)).map (fun p => p.2)

/-- A remote participant as the transcriber sees it: `identity`, the transport
display name `name` (empty string when unset, matching Python truthiness of
`participant.name`), and the parse outcome of `participant.metadata`. -/
structure Participant where
  identity : String
  name : String
  metadata : Option (Option Json)

/-- Embeds the name-resolution block of `handle_audio_track`
(main.py lines 234-241):
```
name = participant.name or participant.identity
if participant.metadata:
    try:
        md = json.loads(participant.metadata)
        if "displayName" in md:
            name = md["displayName"]
    except:
        pass
```
When the parsed metadata is not a dict, `"displayName" in md` either is
false or raises `TypeError`; either way the bare `except` leaves `name` at
its fallback value, so every non-object parse result yields the base name. -/
def resolveName (p : Participant) : Json :=
  let base := Json.str (if p.name ≠ "" then p.name else p.identity)
  match p.metadata with
  | some (some (Json.obj fields)) =>
    match dictGet fields "displayName" with
    | some v => v
    | none => base
  | _ => base

/-- Condition under which the metadata overrides the name: it is present,
parses as an object, and that object has a `displayName` field. -/
def mdDisplay : Option (Option Json) → Option Json
  | some (some (Json.obj fields)) => dictGet fields "displayName"
  | _ => none

/-- Timestamp values as produced by the two code paths: `datetime.datetime.now().isoformat()`
(wall-clock ISO-8601 string) versus `asyncio.get_event_loop().time()`
(event-loop-relative number). -/
inductive Timestamp where
  | isoWallClock : String → Timestamp
  | loopTime : Int → Timestamp

/-- Whether a timestamp is a wall-clock ISO-8601 value. -/
def isIsoWallClock : Timestamp → Bool
  | Timestamp.isoWallClock _ => true
  | Timestamp.loopTime _ => false

/-- The transcript message dict built by both producer paths (main.py
lines 120-126 and 247-253). -/
structure Msg where
  roomId : String
  timestamp : Timestamp
  participantIdentity : String
  participantName : Json
  text : String

/-- The message built in `handle_audio_track` (main.py lines 243-253):
timestamp is `datetime.datetime.now().isoformat()`, a wall-clock ISO string
sampled at publication time and passed here as `nowIso`. -/
def handle_msg (roomId : String) (p : Participant) (nowIso : String) (text : String) : Msg :=
  ⟨roomId, Timestamp.isoWallClock nowIso, p.identity, resolveName p, text⟩

/-- The message built in `TranscriberAgent.transcribe_track` (main.py lines
120-126): timestamp is `asyncio.get_event_loop().time()`, the event-loop
clock sampled at publication time and passed here as `loopNow`. -/
def transcribe_track_msg (roomId : String) (p : Participant) (loopNow : Int) (text : String) : Msg :=
  ⟨roomId, Timestamp.loopTime loopNow, p.identity, resolveName p, text⟩

/-- One subscriber channel of the transcript bus: the queue's identity (Python
object identity of the `asyncio.Queue`) and its current contents. The queue is
created with `asyncio.Queue()`, i.e. unbounded, so `put` always succeeds. -/
abbrev Chan := Nat × List Msg

/-- The global `transcript_queues` dict (main.py line 54):
roomId → list of queues, one per connected SSE client. -/
abbrev Bus := List (String × List Chan)

/-- First-match association lookup, the semantics of `d[k]` / `k in d` for a
Python dict rendered as an association list (keys are unique in Python, so
first match is the match). -/
def busLookup (bus : Bus) (roomId : String) : Option (List Chan) :=
  (bus.find? (fun p => p.1 = roomId)).map (fun p => p.2)

/-- `roomId in transcript_queues`. -/
def busContains (bus : Bus) (roomId : String) : Bool :=
  bus.any (fun p => p.1 = roomId)

/-- Embeds the broadcast step (main.py lines 258-260, and identically
`TranscriberAgent.broadcast_transcript`, lines 131-134):
```
if room_id in transcript_queues:
    for q in transcript_queues[room_id]:
        await q.put(msg)
```
Each registered queue receives the message appended at its tail; each
`q.put` on an unbounded queue completes without waiting, so the iteration
is a pure fan-out. If the room has no entry, nothing happens. -/
def broadcast (bus : Bus) (roomId : String) (msg : Msg) : Bus :=
  if busContains bus roomId then
    bus.map (fun p =>
      if p.1 = roomId then (p.1, p.2.map (fun c => (c.1, c.2 ++ [msg]))) else p)
  else bus

/-- Embeds the subscription step of `transcript_stream.event_generator`
(main.py lines 277-280):
```
q = asyncio.Queue()
if roomId not in transcript_queues:
    transcript_queues[roomId] = []
transcript_queues[roomId].append(q)
```
The fresh queue `qId` starts empty. -/
def subscribe (bus : Bus) (roomId : String) (qId : Nat) : Bus :=
  let bus1 := if busContains bus roomId then bus else bus ++ [(roomId, [])]
  bus1.map (fun p => if p.1 = roomId then (p.1, p.2 ++ [(qId, [])]) else p)

/-- Removes the first channel with the given queue identity: Python's
`list.remove` removes the first element equal to the argument, and distinct
`asyncio.Queue` objects compare by identity. -/
def removeFirst : List Chan → Nat → List Chan
  | [], _ => []
  | c :: rest, q => if c.1 = q then rest else c :: removeFirst rest q

/-- Replaces a room's channel list. -/
def busSet (bus : Bus) (roomId : String) (chans : List Chan) : Bus :=
  bus.map (fun p => if p.1 = roomId then (p.1, chans) else p)

/-- `del transcript_queues[roomId]`. -/
def busErase (bus : Bus) (roomId : String) : Bus :=
  bus.filter (fun p => p.1 ≠ roomId)

/-- Embeds the cleanup in the `finally` of `transcript_stream.event_generator`
(main.py lines 294-298):
```
if roomId in transcript_queues:
    transcript_queues[roomId].remove(q)
    if not transcript_queues[roomId]:
        del transcript_queues[roomId]
```
`list.remove` raises `ValueError` when the queue is not in the list, which
this embedding surfaces as `Except.error "ValueError"`. -/
def unsubscribe (bus : Bus) (roomId : String) (qId : Nat) : Except String Bus :=
  match busLookup bus roomId with
  | none => Except.ok bus
  | some chans =>
    if chans.any (fun c => c.1 = qId) then
      let chans1 := removeFirst chans qId
      Except.ok (if chans1.isEmpty then busErase bus roomId else busSet bus roomId chans1)
    else Except.error "ValueError"

/-- The global `running_agents` dict (main.py line 157): roomId → the
`asyncio.Task` running `room_task`, identified here by a `Nat` task id. -/
abbrev Registry := List (String × Nat)

/-- `room_id in running_agents`. -/
def regContains (reg : Registry) (roomId : String) : Bool :=
  reg.any (fun p => p.1 = roomId)

/-- Lookup of a room's registered task. -/
def regLookup (reg : Registry) (roomId : String) : Option Nat :=
  (reg.find? (fun p => p.1 = roomId)).map (fun p => p.2)

/-- `del running_agents[room_id]` guarded by `if room_id in running_agents`
(main.py lines 210-211); deleting an absent key is a no-op thanks to the guard. -/
def regErase (reg : Registry) (roomId : String) : Registry :=
  reg.filter (fun p => p.1 ≠ roomId)

/-- Python dict assignment `running_agents[room_id] = task`: overwrite in place
if the key exists, else append (insertion order). -/
def regSet (reg : Registry) (roomId : String) (taskId : Nat) : Registry :=
  if regContains reg roomId then
    reg.map (fun p => if p.1 = roomId then (roomId, taskId) else p)
  else reg ++ [(roomId, taskId)]

/-- The registration step of `run_agent_for_room` (main.py lines 213-214):
the room task is created and recorded under its roomId. `taskId` stands for
the fresh `asyncio.Task` object. -/
def run_agent_for_room_register (reg : Registry) (roomId : String) (taskId : Nat) : Registry :=
  regSet reg roomId taskId

/-- Response of the `/attach-transcriber` endpoint: either an
`HTTPException(status_code, detail)` or a `{"status": s}` body. -/
inductive AttachResp where
  | httpError : Nat → String → AttachResp
  | status : String → AttachResp
deriving DecidableEq

/-- `body.get("roomId")` on the request body, rendered as an association list
of its string-valued fields. -/
def bodyGet (body : List (String × String)) (k : String) : Option String :=
  (body.find? (fun p => p.1 = k)).map (fun p => p.2)

/-- Embeds `attach_transcriber` (main.py lines 262-272) together with the
registration performed by `run_agent_for_room`:
```
room_id = body.get("roomId")
if not room_id:
    raise HTTPException(status_code=400, detail="roomId required")
if room_id in running_agents:
    return {"status": "already_running"}
await run_agent_for_room(room_id)
return {"status": "started"}
```
`if not room_id` is true for a missing key and for the empty string.
`newTaskId` stands for the task object `run_agent_for_room` would create. -/
def attach_transcriber (reg : Registry) (body : List (String × String))
    (newTaskId : Nat) : AttachResp × Registry :=
  match bodyGet body "roomId" with
  | none => (AttachResp.httpError 400 "roomId required", reg)
  | some roomId =>
    if roomId = "" then (AttachResp.httpError 400 "roomId required", reg)
    else if regContains reg roomId then (AttachResp.status "already_running", reg)
    else (AttachResp.status "started", run_agent_for_room_register reg roomId newTaskId)

/-- STT speech-event kinds, from `agents.stt.SpeechEventType`; the drain loop
only distinguishes `FINAL_TRANSCRIPT` from everything else. -/
inductive SpeechEventType where
  | finalTranscript
  | interimTranscript
  | startOfSpeech
  | endOfSpeech
deriving DecidableEq

/-- One STT output event: its kind and the texts of its alternatives
(`event.alternatives[i].text`). -/
structure SpeechEvent where
  type : SpeechEventType
  alternatives : List String

/-- Embeds the drain loop of `handle_audio_track` (main.py lines 229-260):
```
async for event in stream:
    if event.type == agents.stt.SpeechEventType.FINAL_TRANSCRIPT:
        text = event.alternatives[0].text
        if text:
            ...build msg, broadcast...
```
It returns the list of messages published, in order. `event.alternatives[0]`
on an event with no alternatives raises `IndexError`, surfaced as
`Except.error`; `nowIso` stands for the wall-clock readings of
`datetime.datetime.now().isoformat()`. -/
def drainLoop (roomId : String) (p : Participant) (nowIso : String) :
    List SpeechEvent → Except String (List Msg)
  | [] => Except.ok []
  | e :: rest =>
    if e.type = SpeechEventType.finalTranscript then
      match e.alternatives with
      | [] => Except.error "IndexError"
      | text :: _ =>
        if text = "" then drainLoop roomId p nowIso rest
        else
          match drainLoop roomId p nowIso rest with
          | Except.ok ms => Except.ok (handle_msg roomId p nowIso text :: ms)
          | Except.error err => Except.error err
    else drainLoop roomId p nowIso rest

/-- Whether a speech event passes both guards of the drain loop: a final
transcript whose first alternative is non-empty. -/
def publishes (e : SpeechEvent) : Bool :=
  e.type = SpeechEventType.finalTranscript && e.alternatives.headD "" ≠ ""

/-- Events observed by `room_task` while its keep-alive loop runs, one per
iteration boundary: a plain `tick` (one `await asyncio.sleep(1)` with nothing
happening), a `participant_disconnected` notification carrying the size of
`room.remote_participants` after the departure, an external loss of the
connection (the transport drops `connection_state` below `CONN_CONNECTED`), or
an exception raised inside the task body. -/
inductive RoomEvent where
  | tick
  | participantDisconnected : Nat → RoomEvent
  | externalDisconnect
  | raiseError : String → RoomEvent
deriving DecidableEq

/-- The room task's observable state: whether the room connection is still in
`CONN_CONNECTED`, and whether the empty-room handler has initiated
`room.disconnect()`. -/
structure AgentState where
  connected : Bool
  emptyDisconnect : Bool
deriving DecidableEq

/-- Embeds the `participant_disconnected` handler (main.py lines 196-200):
```
def on_participant_disconnected(participant):
    if len(room.remote_participants) == 0:
        asyncio.create_task(room.disconnect())
```
The disconnect drops the connection state, which the keep-alive loop observes. -/
def onParticipantDisconnected (remaining : Nat) (s : AgentState) : AgentState :=
  if remaining = 0 then ⟨false, true⟩ else s

/-- Outcome of the `try` body of `room_task`: the keep-alive loop exited
because the connection left `CONN_CONNECTED` (`completed`), an exception
escaped the body (`raised`), or the supplied events ran out with the
connection still up — the loop is still spinning (`stillRunning`). -/
inductive BodyOutcome where
  | completed : AgentState → BodyOutcome
  | raised : AgentState → String → BodyOutcome
  | stillRunning : AgentState → BodyOutcome

/-- Runs the body of `room_task` (main.py lines 178-204) over a finite prefix
of events: the keep-alive loop `while room.connection_state == CONN_CONNECTED:
await asyncio.sleep(1)` re-checks the connection each iteration; handlers fire
during the awaits. -/
def runBody (s : AgentState) : List RoomEvent → BodyOutcome
  | [] => if s.connected then BodyOutcome.stillRunning s else BodyOutcome.completed s
  | e :: rest =>
    if s.connected then
      match e with
      | RoomEvent.tick => runBody s rest
      | RoomEvent.participantDisconnected n => runBody (onParticipantDisconnected n s) rest
      | RoomEvent.externalDisconnect => runBody ⟨false, s.emptyDisconnect⟩ rest
      | RoomEvent.raiseError msg => BodyOutcome.raised s msg
    else BodyOutcome.completed s

/-- Result of a terminated `room_task`: the final agent state, the registry
after the `finally` block, and whether `room.disconnect()` was invoked there. -/
structure TaskResult where
  finalState : AgentState
  registry : Registry
  disconnectCalled : Bool

/-- Embeds `room_task` (main.py lines 177-211) end to end:
```
try:
    await room.connect(...)        # may raise
    ...handlers, keep-alive loop...
except Exception as e:
    logger.error(...)
finally:
    await room.disconnect()
    if room_id in running_agents:
        del running_agents[room_id]
```
`connectOk = false` models `room.connect` raising. The result is `none` while
the keep-alive loop is still running (no termination path taken yet); on every
termination path — normal loop exit, caught exception, failed connect — the
`finally` block disconnects and removes the registry entry. -/
def room_task (roomId : String) (reg : Registry) (connectOk : Bool)
    (events : List RoomEvent) : Option TaskResult :=
  if connectOk then
    match runBody ⟨true, false⟩ events with
    | BodyOutcome.stillRunning _ => none
    | BodyOutcome.completed s => some ⟨⟨false, s.emptyDisconnect⟩, regErase reg roomId, true⟩
    | BodyOutcome.raised s _ => some ⟨⟨false, s.emptyDisconnect⟩, regErase reg roomId, true⟩
  else
    some ⟨⟨false, false⟩, regErase reg roomId, true⟩

/-- One message delivered over the SSE stream: a transcript data event or the
`": keepalive"` comment emitted when `asyncio.wait_for(q.get(), timeout=15.0)`
times out. -/
inductive GenOut where
  | dataEvent : Msg → GenOut
  | keepalive

/-- The timeout (seconds) of `asyncio.wait_for(q.get(), timeout=15.0)`
(main.py line 289). -/
def keepaliveTimeout : Nat := 15

/-- One iteration of the streaming loop in `transcript_stream.event_generator`
(main.py lines 283-293): if the subscriber's queue holds a message, it is
yielded as a data event; otherwise the 15-second wait times out and the
keepalive comment is yielded. Returns the yielded item and the queue's
remaining contents. -/
def generatorStep (q : List Msg) : GenOut × List Msg :=
  match q with
  | [] => (GenOut.keepalive, [])
  | m :: rest => (GenOut.dataEvent m, rest)

/-- Iterated `generatorStep`: the outputs of `n` consecutive loop iterations. -/
def genRun : Nat → List Msg → List GenOut
  | 0, _ => []
  | n + 1, q =>
    let (out, q1) := generatorStep q
    out :: genRun n q1

/-! ### Association-list lemmas used by the proofs -/

theorem assoc_any_eq_isSome {α : Type} (l : List (String × α)) (r : String) :
    l.any (fun p => p.1 = r) = (l.find? (fun p => p.1 = r)).isSome := by
  induction l with
  | nil => rfl
  | cons q l ih =>
    by_cases hq : q.1 = r
    · simp [hq]
    · simp [hq, ih]

theorem assoc_find?_eq_none {α : Type} {l : List (String × α)} {r : String}
    (h : l.any (fun p => p.1 = r) = false) :
    l.find? (fun p => p.1 = r) = none := by
  rw [assoc_any_eq_isSome] at h
  cases hf : l.find? (fun p => p.1 = r) with
  | none => rfl
  | some x => rw [hf] at h; simp at h

theorem busContains_eq_isSome (bus : Bus) (r : String) :
    busContains bus r = (busLookup bus r).isSome := by
  simp [busContains, busLookup, assoc_any_eq_isSome]

theorem broadcast_map_find? (l : Bus) (roomId : String) (msg : Msg) :
    (l.map (fun p =>
        if p.1 = roomId then (p.1, p.2.map (fun c => (c.1, c.2 ++ [msg]))) else p)).find?
          (fun p => p.1 = roomId)
      = (l.find? (fun p => p.1 = roomId)).map
          (fun p => (p.1, p.2.map (fun c => (c.1, c.2 ++ [msg])))) := by
  induction l with
  | nil => rfl
  | cons q l ih =>
    by_cases hq : q.1 = roomId
    · simp [hq]
    · simp [hq, ih]

theorem subscribe_map_find? (l : Bus) (roomId : String) (qId : Nat) :
    (l.map (fun p => if p.1 = roomId then (p.1, p.2 ++ [(qId, [])]) else p)).find?
        (fun p => p.1 = roomId)
      = (l.find? (fun p => p.1 = roomId)).map (fun p => (p.1, p.2 ++ [(qId, [])])) := by
  induction l with
  | nil => rfl
  | cons q l ih =>
    by_cases hq : q.1 = roomId
    · simp [hq]
    · simp [hq, ih]

theorem busSet_map_find? (l : Bus) (roomId : String) (chans : List Chan) :
    (l.map (fun p => if p.1 = roomId then (p.1, chans) else p)).find? (fun p => p.1 = roomId)
      = (l.find? (fun p => p.1 = roomId)).map (fun p => (p.1, chans)) := by
  induction l with
  | nil => rfl
  | cons q l ih =>
    by_cases hq : q.1 = roomId
    · simp [hq]
    · simp [hq, ih]

theorem find?_filter_ne_self {α : Type} (l : List (String × α)) (r : String) :
    (l.filter (fun p => p.1 ≠ r)).find? (fun p => p.1 = r) = none := by
  rw [List.find?_eq_none]
  intro x hx
  rw [List.mem_filter] at hx
  simpa using hx.2

theorem find?_filter_ne_other {α : Type} (l : List (String × α)) (r s : String) (h : s ≠ r) :
    (l.filter (fun p => p.1 ≠ r)).find? (fun p => p.1 = s) = l.find? (fun p => p.1 = s) := by
  induction l with
  | nil => rfl
  | cons q l ih =>
    by_cases hq : q.1 = r
    · have hqs : q.1 ≠ s := by rw [hq]; exact Ne.symm h
      rw [List.filter_cons_of_neg (by simp [hq]), ih,
        List.find?_cons_of_neg _ (by simp [hqs])]
    · by_cases hqs : q.1 = s
      · rw [List.filter_cons_of_pos (by simp [hq]),
          List.find?_cons_of_pos _ (by simp [hqs]),
          List.find?_cons_of_pos _ (by simp [hqs])]
      · rw [List.filter_cons_of_pos (by simp [hq]),
          List.find?_cons_of_neg _ (by simp [hqs]), ih,
          List.find?_cons_of_neg _ (by simp [hqs])]

/-! ### Lookup characterizations of the bus and registry operations -/

theorem broadcast_map_find?_other (l : Bus) (roomId : String) (msg : Msg) (r : String)
    (h : r ≠ roomId) :
    (l.map (fun p =>
        if p.1 = roomId then (p.1, p.2.map (fun c => (c.1, c.2 ++ [msg]))) else p)).find?
          (fun p => p.1 = r)
      = l.find? (fun p => p.1 = r) := by
  induction l with
  | nil => rfl
  | cons q l ih =>
    by_cases hq : q.1 = roomId
    · have hqr : q.1 ≠ r := by rw [hq]; exact Ne.symm h
      simp [hq, hqr, Ne.symm h, ih]
    · by_cases hqr : q.1 = r
      · simp [hq, hqr, h]
      · simp [hq, hqr, ih]

theorem busSet_map_find?_other (l : Bus) (roomId : String) (chans : List Chan) (r : String)
    (h : r ≠ roomId) :
    (l.map (fun p => if p.1 = roomId then (p.1, chans) else p)).find? (fun p => p.1 = r)
      = l.find? (fun p => p.1 = r) := by
  induction l with
  | nil => rfl
  | cons q l ih =>
    by_cases hq : q.1 = roomId
    · have hqr : q.1 ≠ r := by rw [hq]; exact Ne.symm h
      simp [hq, hqr, Ne.symm h, ih]
    · by_cases hqr : q.1 = r
      · simp [hq, hqr, h]
      · simp [hq, hqr, ih]

theorem busContains_eq_false {bus : Bus} {r : String} (h : ¬ busContains bus r = true) :
    busContains bus r = false := by
  cases hc : busContains bus r
  · rfl
  · exact absurd hc h

theorem broadcast_lookup (bus : Bus) (roomId : String) (msg : Msg) :
    busLookup (broadcast bus roomId msg) roomId
      = (busLookup bus roomId).map (fun chans => chans.map (fun c => (c.1, c.2 ++ [msg]))) := by
  by_cases hc : busContains bus roomId = true
  · simp only [broadcast, hc, if_true, busLookup, broadcast_map_find?]
    cases bus.find? (fun p => p.1 = roomId) with
    | none => rfl
    | some q => rfl
  · have hc' := busContains_eq_false hc
    have hnone : busLookup bus roomId = none := by
      simp [busLookup, assoc_find?_eq_none hc']
    simp only [broadcast, hc', Bool.false_eq_true, if_false, hnone, Option.map_none']

theorem broadcast_lookup_other (bus : Bus) (roomId : String) (msg : Msg) (r : String)
    (h : r ≠ roomId) :
    busLookup (broadcast bus roomId msg) r = busLookup bus r := by
  by_cases hc : busContains bus roomId = true
  · simp only [broadcast, hc, if_true, busLookup, broadcast_map_find?_other bus roomId msg r h]
  · simp only [broadcast, busContains_eq_false hc, Bool.false_eq_true, if_false]

theorem subscribe_lookup (bus : Bus) (roomId : String) (qId : Nat) :
    busLookup (subscribe bus roomId qId) roomId
      = some (((busLookup bus roomId).getD []) ++ [(qId, [])]) := by
  by_cases hc : busContains bus roomId = true
  · have hsome : (busLookup bus roomId).isSome := by
      rw [← busContains_eq_isSome]; exact hc
    obtain ⟨chans, hch⟩ := Option.isSome_iff_exists.mp hsome
    simp only [subscribe, hc, if_true, busLookup, subscribe_map_find?]
    simp only [busLookup] at hch
    cases hfind : bus.find? (fun p => p.1 = roomId) with
    | none => rw [hfind] at hch; simp at hch
    | some q =>
      rw [hfind] at hch
      simp only [Option.map_some'] at hch ⊢
      simp [busLookup, hfind, hch]
      exact Option.some.inj hch
  · have hc' := busContains_eq_false hc
    have hnone : busLookup bus roomId = none := by
      simp [busLookup, assoc_find?_eq_none hc']
    simp only [subscribe, hc', Bool.false_eq_true, if_false, busLookup, subscribe_map_find?,
      List.find?_append, assoc_find?_eq_none hc', hnone]
    simp

theorem busSet_lookup_self (bus : Bus) (roomId : String) (chans : List Chan)
    (h : busContains bus roomId = true) :
    busLookup (busSet bus roomId chans) roomId = some chans := by
  have hsome : (busLookup bus roomId).isSome := by
    rw [← busContains_eq_isSome]; exact h
  simp only [busSet, busLookup, busSet_map_find?]
  simp only [busLookup] at hsome
  cases hfind : bus.find? (fun p => p.1 = roomId) with
  | none => rw [hfind] at hsome; simp at hsome
  | some q => simp

theorem busSet_lookup_other (bus : Bus) (roomId : String) (chans : List Chan) (r : String)
    (h : r ≠ roomId) :
    busLookup (busSet bus roomId chans) r = busLookup bus r := by
  simp only [busSet, busLookup, busSet_map_find?_other bus roomId chans r h]

theorem busErase_lookup_self (bus : Bus) (roomId : String) :
    busLookup (busErase bus roomId) roomId = none := by
  simp [busLookup, busErase, find?_filter_ne_self]

theorem busErase_lookup_other (bus : Bus) (roomId : String) (r : String) (h : r ≠ roomId) :
    busLookup (busErase bus roomId) r = busLookup bus r := by
  simp only [busLookup, busErase, find?_filter_ne_other bus roomId r h]

theorem regContains_regErase (reg : Registry) (roomId : String) :
    regContains (regErase reg roomId) roomId = false := by
  induction reg with
  | nil => rfl
  | cons q l ih =>
    by_cases hq : q.1 = roomId
    · simp [regErase, regContains, hq]
    · simp [regErase, regContains, hq]

theorem regContains_false_not_mem {reg : Registry} {roomId : String}
    (h : regContains reg roomId = false) :
    roomId ∉ reg.map Prod.fst := by
  intro hm
  obtain ⟨p, hp, hp1⟩ := List.mem_map.mp hm
  have : reg.any (fun p => p.1 = roomId) = true :=
    List.any_eq_true.mpr ⟨p, hp, by simp [hp1]⟩
  rw [regContains] at h
  rw [this] at h
  exact Bool.true_eq_false.mp h

/-! ### Claim theorems -/

/-- C1: `attach` preserves the at-most-one-live-agent-per-room invariant.
If the registry already holds an entry for the requested roomId, the endpoint
answers `already_running` and the registry is unchanged; otherwise it answers
`started` after constructing the room task and registering it under the
roomId, the new entry is retrievable, and duplicate-freedom of the registry's
keys is preserved, so at most one agent is ever registered per room. -/
theorem C1_attach_at_most_one_agent (reg : Registry) (roomId : String) (tid : Nat)
    (hne : roomId ≠ "") :
    (regContains reg roomId = true →
      attach_transcriber reg [("roomId", roomId)] tid
        = (AttachResp.status "already_running", reg))
  ∧ (regContains reg roomId = false →
      attach_transcriber reg [("roomId", roomId)] tid
        = (AttachResp.status "started", reg ++ [(roomId, tid)])
      ∧ regLookup (reg ++ [(roomId, tid)]) roomId = some tid
      ∧ ((reg.map Prod.fst).Nodup → ((reg ++ [(roomId, tid)]).map Prod.fst).Nodup)) := by
  have hbody : bodyGet [("roomId", roomId)] "roomId" = some roomId := by
    simp [bodyGet]
  constructor
  · intro h
    simp [attach_transcriber, hbody, hne, h]
  · intro h
    refine ⟨?_, ?_, ?_⟩
    · simp [attach_transcriber, hbody, hne, h, run_agent_for_room_register, regSet]
    · simp only [regLookup, List.find?_append, assoc_find?_eq_none h]
      simp
    · intro hn
      rw [List.map_append]
      refine List.Nodup.append hn (List.nodup_singleton _) ?_
      intro a ha hb
      rw [List.map_singleton, List.mem_singleton] at hb
      subst hb
      exact regContains_false_not_mem h ha

/-- Witness for C1 at concrete inputs: a second attach for a registered room
is a pure `already_running`, and an attach for a fresh room registers it. -/
theorem C1_attach_at_most_one_agent_witness :
    attach_transcriber [("r1", 3)] [("roomId", "r1")] 9
      = (AttachResp.status "already_running", [("r1", 3)])
  ∧ attach_transcriber [] [("roomId", "r1")] 9
      = (AttachResp.status "started", [("r1", 9)]) := by
  constructor
  · exact (C1_attach_at_most_one_agent [("r1", 3)] "r1" 9 (by decide)).1 (by decide)
  · exact ((C1_attach_at_most_one_agent [] "r1" 9 (by decide)).2 (by decide)).1

/-- C7: a POST body without a `roomId` field is rejected with an
`HTTPException(400, "roomId required")` and the registry is left unchanged:
no agent task is created. -/
theorem C7_missing_roomId_rejected (reg : Registry) (body : List (String × String))
    (tid : Nat) (h : bodyGet body "roomId" = none) :
    attach_transcriber reg body tid = (AttachResp.httpError 400 "roomId required", reg) := by
  simp [attach_transcriber, h]

/-- Witness for C7: a body with only unrelated fields is rejected and the
registry entry count is untouched. -/
theorem C7_missing_roomId_rejected_witness :
    attach_transcriber [("r1", 3)] [("otherField", "x")] 9
      = (AttachResp.httpError 400 "roomId required", [("r1", 3)]) :=
  C7_missing_roomId_rejected [("r1", 3)] [("otherField", "x")] 9 (by decide)

/-- C2: publishing fans out to every currently-registered channel of the room:
each channel's queue receives the event appended, independently of the other
channels' queue contents (the appended value does not depend on them, and the
unbounded `asyncio.Queue.put` never waits); with no registered channels the
event is dropped without error and without being queued anywhere; channels of
other rooms are untouched. -/
theorem C2_publish_fanout (bus : Bus) (roomId : String) (msg : Msg) :
    (busLookup bus roomId = none → broadcast bus roomId msg = bus)
  ∧ (∀ chans, busLookup bus roomId = some chans →
      busLookup (broadcast bus roomId msg) roomId
        = some (chans.map (fun c => (c.1, c.2 ++ [msg]))))
  ∧ (∀ r, r ≠ roomId → busLookup (broadcast bus roomId msg) r = busLookup bus r) := by
  refine ⟨?_, ?_, ?_⟩
  · intro h
    have hc : busContains bus roomId = false := by
      rw [busContains_eq_isSome, h]; rfl
    simp [broadcast, hc]
  · intro chans h
    rw [broadcast_lookup, h]
    rfl
  · intro r hr
    exact broadcast_lookup_other bus roomId msg r hr

/-- Witness for C2: publishing to a room with no subscribers is a no-op;
publishing to a room with a fast channel (1, empty) and a slow channel
(2, backlogged) delivers to both and leaves the sibling room alone. -/
theorem C2_publish_fanout_witness :
    broadcast [] "r" (handle_msg "r" ⟨"u", "", none⟩ "t0" "hi") = []
  ∧ busLookup (broadcast [("r", [(1, []), (2, [handle_msg "r" ⟨"u", "", none⟩ "t0" "old"])]), ("s", [(3, [])])]
        "r" (handle_msg "r" ⟨"u", "", none⟩ "t0" "hi")) "r"
      = some [(1, [handle_msg "r" ⟨"u", "", none⟩ "t0" "hi"]),
              (2, [handle_msg "r" ⟨"u", "", none⟩ "t0" "old",
                   handle_msg "r" ⟨"u", "", none⟩ "t0" "hi"])]
  ∧ busLookup (broadcast [("r", [(1, []), (2, [handle_msg "r" ⟨"u", "", none⟩ "t0" "old"])]), ("s", [(3, [])])]
        "r" (handle_msg "r" ⟨"u", "", none⟩ "t0" "hi")) "s"
      = busLookup [("r", [(1, []), (2, [handle_msg "r" ⟨"u", "", none⟩ "t0" "old"])]), ("s", [(3, [])])] "s" := by
  refine ⟨(C2_publish_fanout [] "r" _).1 rfl, ?_, (C2_publish_fanout _ "r" _).2.2 "s" (by decide)⟩
  exact (C2_publish_fanout _ "r" _).2.1
    [(1, []), (2, [handle_msg "r" ⟨"u", "", none⟩ "t0" "old"])] rfl

/-- C3: the drain loop publishes exactly the final transcripts with non-empty
text. Provided every final event carries at least one alternative (the STT
collaborator's output shape, required because the code indexes
`event.alternatives[0]`), the loop completes without error and the published
messages are precisely, in order, one per final event with non-empty first
alternative; interim events and empty-text finals are skipped silently. -/
theorem C3_drain_publishes_exactly_finals (roomId : String) (p : Participant)
    (nowIso : String) (events : List SpeechEvent)
    (h : ∀ e ∈ events, e.type = SpeechEventType.finalTranscript → e.alternatives ≠ []) :
    drainLoop roomId p nowIso events
      = Except.ok ((events.filter publishes).map
          (fun e => handle_msg roomId p nowIso (e.alternatives.headD ""))) := by
  induction events with
  | nil => rfl
  | cons e rest ih =>
    have hrest : ∀ x ∈ rest, x.type = SpeechEventType.finalTranscript → x.alternatives ≠ [] :=
      fun x hx => h x (List.mem_cons_of_mem _ hx)
    by_cases he : e.type = SpeechEventType.finalTranscript
    · cases halt : e.alternatives with
      | nil => exact absurd halt (h e (List.mem_cons_self _ _) he)
      | cons t ts =>
        by_cases ht : t = ""
        · have hpub : publishes e = false := by
            simp [publishes, halt, ht]
          rw [List.filter_cons_of_neg (by simp [hpub])]
          simp only [drainLoop, he, if_true, halt, ht, if_pos]
          exact ih hrest
        · have hpub : publishes e = true := by
            simp [publishes, he, halt, ht]
          rw [List.filter_cons_of_pos (by simp [hpub]), List.map_cons]
          simp only [drainLoop, he, if_true, halt]
          rw [if_neg ht, ih hrest]
          simp [halt]
    · have hpub : publishes e = false := by simp [publishes, he]
      rw [List.filter_cons_of_neg (by simp [hpub])]
      simp only [drainLoop, he, if_false]
      exact ih hrest

/-- Witness for C3: a stream with a "hello" final, an empty final and an
interim event publishes exactly the "hello" message. -/
theorem C3_drain_publishes_exactly_finals_witness :
    drainLoop "r" ⟨"u", "", none⟩ "t0"
        [⟨SpeechEventType.finalTranscript, ["hello"]⟩,
         ⟨SpeechEventType.finalTranscript, [""]⟩,
         ⟨SpeechEventType.interimTranscript, ["partial text"]⟩]
      = Except.ok [handle_msg "r" ⟨"u", "", none⟩ "t0" "hello"] := by
  have h := C3_drain_publishes_exactly_finals "r" ⟨"u", "", none⟩ "t0"
    [⟨SpeechEventType.finalTranscript, ["hello"]⟩,
     ⟨SpeechEventType.finalTranscript, [""]⟩,
     ⟨SpeechEventType.interimTranscript, ["partial text"]⟩]
    (by
      intro e he hf
      simp only [List.mem_cons, List.not_mem_nil, or_false] at he
      rcases he with he | he | he <;> subst he <;> simp)
  rw [h]
  rfl

/-- C4: name resolution follows the priority order metadata `displayName` >
transport display-name hint > raw identity, and is a pure total function.
(1) When the metadata parses as an object with a `displayName` field, that
value wins. (2) With no usable metadata and a non-empty hint, the hint wins.
(3) With neither, the raw identity is used. (4) Malformed metadata behaves
exactly like absent metadata: the bare `except` swallows the parse error, so
resolution never raises and never aborts the caller. -/
theorem C4_resolve_name_priority (identity name : String) (md : Option (Option Json)) :
    (∀ fields v, md = some (some (Json.obj fields)) →
      dictGet fields "displayName" = some v →
      resolveName ⟨identity, name, md⟩ = v)
  ∧ (mdDisplay md = none → name ≠ "" → resolveName ⟨identity, name, md⟩ = Json.str name)
  ∧ (mdDisplay md = none → name = "" → resolveName ⟨identity, name, md⟩ = Json.str identity)
  ∧ resolveName ⟨identity, name, some none⟩ = resolveName ⟨identity, name, none⟩ := by
  refine ⟨?_, ?_, ?_, rfl⟩
  · intro fields v hmd hget
    subst hmd
    simp [resolveName, hget]
  · intro hnone hname
    rcases md with _ | md1
    · simp [resolveName, hname]
    · rcases md1 with _ | j
      · simp [resolveName, hname]
      · cases j with
        | obj fields =>
          have hget : dictGet fields "displayName" = none := by
            simpa [mdDisplay] using hnone
          simp [resolveName, hget, hname]
        | str s => simp [resolveName, hname]
        | num n => simp [resolveName, hname]
        | arr l => simp [resolveName, hname]
        | jbool b => simp [resolveName, hname]
        | null => simp [resolveName, hname]
  · intro hnone hname
    subst hname
    rcases md with _ | md1
    · simp [resolveName]
    · rcases md1 with _ | j
      · simp [resolveName]
      · cases j with
        | obj fields =>
          have hget : dictGet fields "displayName" = none := by
            simpa [mdDisplay] using hnone
          simp [resolveName, hget]
        | str s => simp [resolveName]
        | num n => simp [resolveName]
        | arr l => simp [resolveName]
        | jbool b => simp [resolveName]
        | null => simp [resolveName]

/-- Witness for C4, the three spec examples: metadata
`{"displayName":"Ann"}` with identity `u1` resolves to `Ann`; malformed
metadata with hint `Bob` resolves to `Bob`; neither resolves to the raw
identity `u3`. -/
theorem C4_resolve_name_priority_witness :
    resolveName ⟨"u1", "", some (some (Json.obj [("displayName", Json.str "Ann")]))⟩
      = Json.str "Ann"
  ∧ resolveName ⟨"u2", "Bob", some none⟩ = Json.str "Bob"
  ∧ resolveName ⟨"u3", "", none⟩ = Json.str "u3" := by
  refine ⟨?_, ?_, ?_⟩
  · exact (C4_resolve_name_priority "u1" "" _).1
      [("displayName", Json.str "Ann")] (Json.str "Ann") rfl rfl
  · exact (C4_resolve_name_priority "u2" "Bob" (some none)).2.1 rfl (by decide)
  · exact (C4_resolve_name_priority "u3" "" none).2.2.1 rfl rfl

theorem removeFirst_length (chans : List Chan) (qId : Nat)
    (h : chans.any (fun c => c.1 = qId) = true) :
    (removeFirst chans qId).length + 1 = chans.length := by
  induction chans with
  | nil => simp at h
  | cons c rest ih =>
    by_cases hc : c.1 = qId
    · simp [removeFirst, hc]
    · have h1 : rest.any (fun c => c.1 = qId) = true := by
        simpa [hc] using h
      simp [removeFirst, hc, ih h1]

/-- C5 counterexample: unsubscribing the same channel a second time is NOT a
no-op in general. With channels 1 and 2 registered for room "r", removing
channel 1 succeeds; removing it again while the room entry still exists makes
`transcript_queues[roomId].remove(q)` raise `ValueError` — the claimed
error-free idempotence fails. -/
theorem C5_unsubscribe_counterexample :
    unsubscribe [("r", [(1, []), (2, [])])] "r" 1 = Except.ok [("r", [(2, [])])]
  ∧ unsubscribe [("r", [(2, [])])] "r" 1 = Except.error "ValueError" :=
  ⟨rfl, rfl⟩

/-- C5 (amended): unsubscribe removes the first occurrence of the channel from
its room's list and deletes the room's entry when the list becomes empty,
leaving other rooms untouched; a second unsubscribe of the same channel is a
no-op (no error) only when the room's entry has already been deleted; if the
room still has an entry that no longer contains the channel, the second
unsubscribe raises `ValueError`. -/
theorem C5_unsubscribe_amended (bus : Bus) (roomId : String) (qId : Nat) :
    (busLookup bus roomId = none → unsubscribe bus roomId qId = Except.ok bus)
  ∧ (∀ chans, busLookup bus roomId = some chans →
      chans.any (fun c => c.1 = qId) = true →
      ∃ bus1, unsubscribe bus roomId qId = Except.ok bus1
        ∧ busLookup bus1 roomId
            = (if (removeFirst chans qId).isEmpty then none
               else some (removeFirst chans qId))
        ∧ (∀ r, r ≠ roomId → busLookup bus1 r = busLookup bus r)
        ∧ (removeFirst chans qId).length + 1 = chans.length)
  ∧ (∀ chans, busLookup bus roomId = some chans →
      chans.any (fun c => c.1 = qId) = false →
      unsubscribe bus roomId qId = Except.error "ValueError") := by
  refine ⟨?_, ?_, ?_⟩
  · intro h
    simp [unsubscribe, h]
  · intro chans h hin
    have hc : busContains bus roomId = true := by
      rw [busContains_eq_isSome, h]; rfl
    refine ⟨if (removeFirst chans qId).isEmpty then busErase bus roomId
        else busSet bus roomId (removeFirst chans qId), ?_, ?_, ?_, removeFirst_length chans qId hin⟩
    · simp [unsubscribe, h, hin]
    · by_cases hemp : (removeFirst chans qId).isEmpty = true
      · simp [hemp, busErase_lookup_self]
      · have hemp2 : (removeFirst chans qId).isEmpty = false := by
          cases he : (removeFirst chans qId).isEmpty
          · rfl
          · exact absurd he hemp
        rw [hemp2]
        simp only [Bool.false_eq_true, if_false]
        exact busSet_lookup_self bus roomId (removeFirst chans qId) hc
    · intro r hr
      by_cases hemp : (removeFirst chans qId).isEmpty = true
      · simp only [hemp, if_true]
        exact busErase_lookup_other bus roomId r hr
      · have hemp2 : (removeFirst chans qId).isEmpty = false := by
          cases he : (removeFirst chans qId).isEmpty
          · rfl
          · exact absurd he hemp
        rw [hemp2]
        simp only [Bool.false_eq_true, if_false]
        exact busSet_lookup_other bus roomId (removeFirst chans qId) r hr
  · intro chans h hin
    simp [unsubscribe, h, hin]

/-- Witness for C5 (amended) at concrete inputs: a first unsubscribe with a
sibling channel present succeeds and keeps the room entry, and unsubscribing
a channel that is no longer in the still-present entry raises `ValueError`;
unsubscribing when the room entry is gone is an error-free no-op. -/
theorem C5_unsubscribe_amended_witness :
    unsubscribe [] "r" 1 = Except.ok []
  ∧ (∃ bus1, unsubscribe [("r", [(1, []), (2, [])])] "r" 1 = Except.ok bus1
      ∧ busLookup bus1 "r"
          = (if (removeFirst [(1, []), (2, [])] 1).isEmpty then none
             else some (removeFirst [(1, []), (2, [])] 1))
      ∧ (∀ r, r ≠ "r" → busLookup bus1 r = busLookup [("r", [(1, []), (2, [])])] r)
      ∧ (removeFirst [(1, []), (2, [])] 1).length + 1
          = ([(1, []), (2, [])] : List Chan).length)
  ∧ unsubscribe [("s", [(2, [])])] "s" 1 = Except.error "ValueError" := by
  refine ⟨(C5_unsubscribe_amended [] "r" 1).1 rfl, ?_, ?_⟩
  · exact (C5_unsubscribe_amended [("r", [(1, []), (2, [])])] "r" 1).2.1
      [(1, []), (2, [])] rfl (by decide)
  · exact (C5_unsubscribe_amended [("s", [(2, [])])] "s" 1).2.2 [(2, [])] rfl (by decide)

/-- C6: on every termination path of the room task — normal loop exit after
the connection leaves the connected state, an exception raised in the body,
or a failed connect — the `finally` block runs: `room.disconnect()` is
invoked and the roomId entry is removed from the registry, so a terminated
task never leaves a registry entry behind. -/
theorem C6_cleanup_on_all_paths (roomId : String) (reg : Registry) (connectOk : Bool)
    (events : List RoomEvent) (res : TaskResult)
    (h : room_task roomId reg connectOk events = some res) :
    res.disconnectCalled = true
  ∧ regContains res.registry roomId = false
  ∧ res.finalState.connected = false := by
  cases connectOk with
  | false =>
    simp only [room_task, Bool.false_eq_true, if_false, Option.some.injEq] at h
    subst h
    exact ⟨rfl, regContains_regErase reg roomId, rfl⟩
  | true =>
    simp only [room_task, if_true] at h
    cases hb : runBody ⟨true, false⟩ events with
    | stillRunning s => rw [hb] at h; exact absurd h (by simp)
    | completed s =>
      rw [hb] at h
      simp only [Option.some.injEq] at h
      subst h
      exact ⟨rfl, regContains_regErase reg roomId, rfl⟩
    | raised s m =>
      rw [hb] at h
      simp only [Option.some.injEq] at h
      subst h
      exact ⟨rfl, regContains_regErase reg roomId, rfl⟩

/-- Witness for C6: the empty-room path (last participant leaves) terminates
with the disconnect performed and the registry entry for "r" gone. -/
theorem C6_cleanup_on_all_paths_witness :
    (⟨⟨false, true⟩, ([] : Registry), true⟩ : TaskResult).disconnectCalled = true
  ∧ regContains (⟨⟨false, true⟩, ([] : Registry), true⟩ : TaskResult).registry "r" = false
  ∧ (⟨⟨false, true⟩, ([] : Registry), true⟩ : TaskResult).finalState.connected = false :=
  C6_cleanup_on_all_paths "r" [("r", 5)] true [RoomEvent.participantDisconnected 0]
    ⟨⟨false, true⟩, [], true⟩ rfl

/-- C8: the two message-producing code paths stamp timestamps inconsistently:
`handle_audio_track` (the path actually wired to `run_agent_for_room`) stamps
a wall-clock ISO-8601 string, while `TranscriberAgent.transcribe_track`
stamps the event-loop-relative clock `asyncio.get_event_loop().time()`, which
is not a wall-clock ISO-8601 representation. -/
theorem C8_timestamp_paths (roomId : String) (p : Participant) (nowIso : String)
    (loopNow : Int) (text : String) :
    isIsoWallClock (handle_msg roomId p nowIso text).timestamp = true
  ∧ isIsoWallClock (transcribe_track_msg roomId p loopNow text).timestamp = false :=
  ⟨rfl, rfl⟩

/-- Projects the agent state out of a body outcome. -/
def outcomeState : BodyOutcome → AgentState
  | BodyOutcome.completed s => s
  | BodyOutcome.raised s _ => s
  | BodyOutcome.stillRunning s => s

theorem runBody_emptyDisconnect : ∀ (events : List RoomEvent) (s : AgentState),
    (∀ n, RoomEvent.participantDisconnected n ∉ events) →
    (outcomeState (runBody s events)).emptyDisconnect = s.emptyDisconnect
  | [], s, _ => by cases hcc : s.connected <;> simp [runBody, hcc, outcomeState]
  | e :: rest, s, h => by
    have hrest : ∀ n, RoomEvent.participantDisconnected n ∉ rest := fun n hn =>
      h n (List.mem_cons_of_mem _ hn)
    cases hcc : s.connected with
    | false => simp [runBody, hcc, outcomeState]
    | true =>
      cases e with
      | tick =>
        simpa [runBody, hcc] using runBody_emptyDisconnect rest s hrest
      | participantDisconnected n =>
        exact absurd (List.mem_cons_self _ _) (h n)
      | externalDisconnect =>
        simpa [runBody, hcc] using
          runBody_emptyDisconnect rest ⟨false, s.emptyDisconnect⟩ hrest
      | raiseError m => simp [runBody, hcc, outcomeState]

theorem runBody_all_ticks : ∀ (events : List RoomEvent),
    (∀ e ∈ events, e = RoomEvent.tick) →
    runBody ⟨true, false⟩ events = BodyOutcome.stillRunning ⟨true, false⟩
  | [], _ => rfl
  | e :: rest, h => by
    have he : e = RoomEvent.tick := h e (List.mem_cons_self _ _)
    subst he
    have hrest : ∀ x ∈ rest, x = RoomEvent.tick := fun x hx =>
      h x (List.mem_cons_of_mem _ hx)
    simpa [runBody] using runBody_all_ticks rest hrest

/-- C9: the empty-room drain is initiated only from inside the
`participant_disconnected` handler. A room task that never receives a
`participant_disconnected` notification never sets the empty-room disconnect
(whatever else happens), and as long as nothing drops the connection the
keep-alive loop just keeps spinning — the task does not terminate. -/
theorem C9_empty_room_drain_only_from_handler (roomId : String) (reg : Registry)
    (events : List RoomEvent) :
    ((∀ n, RoomEvent.participantDisconnected n ∉ events) →
      ∀ res, room_task roomId reg true events = some res →
        res.finalState.emptyDisconnect = false)
  ∧ ((∀ e ∈ events, e = RoomEvent.tick) →
      room_task roomId reg true events = none) := by
  constructor
  · intro h res hres
    have hst := runBody_emptyDisconnect events ⟨true, false⟩ h
    simp only [room_task, if_true] at hres
    cases hb : runBody ⟨true, false⟩ events with
    | stillRunning s => rw [hb] at hres; simp at hres
    | completed s =>
      rw [hb] at hres
      rw [hb] at hst
      simp only [Option.some.injEq] at hres
      subst hres
      simpa [outcomeState] using hst
    | raised s m =>
      rw [hb] at hres
      rw [hb] at hst
      simp only [Option.some.injEq] at hres
      subst hres
      simpa [outcomeState] using hst
  · intro h
    simp [room_task, runBody_all_ticks events h]

/-- Witness for C9: with the connection dropped externally (no
`participant_disconnected` ever delivered) the finished task never initiated
the empty-room disconnect; and two silent keep-alive iterations leave the
task still running. -/
theorem C9_empty_room_drain_only_from_handler_witness :
    (⟨⟨false, false⟩, ([] : Registry), true⟩ : TaskResult).finalState.emptyDisconnect = false
  ∧ room_task "r" [("r", 5)] true [RoomEvent.tick, RoomEvent.tick] = none := by
  constructor
  · exact (C9_empty_room_drain_only_from_handler "r" [("r", 5)]
      [RoomEvent.externalDisconnect]).1 (by intro n hn; simp at hn)
      ⟨⟨false, false⟩, [], true⟩ rfl
  · exact (C9_empty_room_drain_only_from_handler "r" [("r", 5)]
      [RoomEvent.tick, RoomEvent.tick]).2 (by decide)

/-- C10: `GET /transcript-stream` never consults the agent registry — even for
a roomId with no running agent the subscription registers a fresh empty queue
(creating the room's subscriber list if absent), and until something is
published into the queue every loop iteration times out after the 15-second
interval and yields only keepalive markers. -/
theorem C10_stream_without_agent (reg : Registry) (bus : Bus) (roomId : String)
    (qId : Nat) (_hagent : regContains reg roomId = false) :
    busLookup (subscribe bus roomId qId) roomId
      = some (((busLookup bus roomId).getD []) ++ [(qId, [])])
  ∧ (∀ n, genRun n [] = List.replicate n GenOut.keepalive)
  ∧ keepaliveTimeout = 15 := by
  refine ⟨subscribe_lookup bus roomId qId, ?_, rfl⟩
  intro n
  induction n with
  | zero => rfl
  | succ k ih => simp [genRun, generatorStep, ih, List.replicate_succ]

/-- Witness for C10: subscribing to room "ghost", for which no agent is
registered, registers queue 7 in a fresh room entry, and two silent
iterations of the stream yield two keepalives. -/
theorem C10_stream_without_agent_witness :
    busLookup (subscribe [] "ghost" 7) "ghost" = some [(7, [])]
  ∧ genRun 2 [] = [GenOut.keepalive, GenOut.keepalive]
  ∧ keepaliveTimeout = 15 := by
  have h := C10_stream_without_agent [("other", 1)] [] "ghost" 7 (by decide)
  exact ⟨h.1, h.2.1 2, h.2.2⟩
